import Mathlib

/-!
Verification of the bearwatch-util/node-sdk retry core.

This file shallowly embeds the request-execution and retry subsystem of the
SDK: the typed error model (`src/errors.ts`), the retry helpers
(`src/internal/retry.ts`), the response-classification path of the HTTP
client (`createHttpClient`), and the heartbeat wrapper (`wrap` in
`src/bearwatch.ts`).  JavaScript numbers that are always integral are
modelled as `Nat`/`Int`; the jitter drawn from `Math.random` is passed in
explicitly as a rational; `JSON.parse` and `Date` parsing, which are host
runtime services, are passed in as explicit parameters.
-/

namespace BearWatch

/-- The closed enumeration of SDK error codes (`ErrorCode` in `src/errors.ts`). -/
inductive ErrorCode
| INVALID_API_KEY
| JOB_NOT_FOUND
| RATE_LIMITED
| SERVER_ERROR
| INVALID_RESPONSE
| NETWORK_ERROR
| TIMEOUT
deriving DecidableEq

instance : BEq ErrorCode := ⟨fun a b => decide (a = b)⟩

instance : LawfulBEq ErrorCode :=
  ⟨fun h => of_decide_eq_true h, decide_eq_true rfl⟩

/-- The `BearWatchError` class of `src/errors.ts`, together with the optional
`retryAfter` field of `BearWatchErrorWithRetry` from `src/internal/retry.ts`
(in TypeScript that is an intersection type; here we carry the field, `none`
standing for `undefined`/`null`). -/
structure BearWatchError where
  message : String
  code : ErrorCode
  statusCode : Option Nat := none
  responseBody : Option String := none
  retryAfter : Option String := none
deriving DecidableEq

/-- `RETRYABLE_STATUS_CODES` from `src/internal/retry.ts`. -/
def RETRYABLE_STATUS_CODES : List Nat := [429, 500, 502, 503, 504]

/-- `RETRYABLE_ERROR_CODES` from `src/internal/retry.ts`. -/
def RETRYABLE_ERROR_CODES : List ErrorCode :=
  [.NETWORK_ERROR, .TIMEOUT, .RATE_LIMITED, .SERVER_ERROR]

/-- `isRetryable` from `src/internal/retry.ts`.  The JavaScript guard
`error.statusCode && RETRYABLE_STATUS_CODES.includes(error.statusCode)` tests
truthiness of the optional number first, so an absent status (and a zero
status) falls through to the error-code check. -/
def isRetryable (e : BearWatchError) : Bool :=
  match e.statusCode with
  | some s =>
    if s != 0 && RETRYABLE_STATUS_CODES.contains s then true
    else RETRYABLE_ERROR_CODES.contains e.code
  | none => RETRYABLE_ERROR_CODES.contains e.code

/-- `calculateBackoffDelay` from `src/internal/retry.ts`.  The value drawn by
`Math.random` enters through `jitter` (the code computes
`jitter = 0.5 + Math.random() * 0.5`); the result is
`Math.floor(baseDelay * 2 ^ attempt * jitter)`. -/
def calculateBackoffDelay (attempt : Nat) (baseDelay : Nat) (jitter : ℚ) : Int :=
  ⌊(baseDelay * 2 ^ attempt : ℚ) * jitter⌋

/-- JavaScript `parseInt(s, 10)`: skip leading whitespace, read an optional
sign, then the longest prefix of decimal digits; `NaN` (here `none`) when no
digit is found.  Trailing garbage is ignored, exactly as in the runtime. -/
def jsParseInt (s : String) : Option Int :=
  let cs := s.data.dropWhile fun c => c = ' ' ∨ c = '\t' ∨ c = '\n' ∨ c = '\r'
  let signed : Int × List Char :=
    match cs with
    | '-' :: t => (-1, t)
    | '+' :: t => (1, t)
    | _ => (1, cs)
  let ds := signed.2.takeWhile Char.isDigit
  if ds = [] then none
  else some (signed.1 * (ds.foldl (fun a c => a * 10 + (c.toNat - 48)) 0 : Nat))

/-- `parseRetryAfter` from `src/internal/retry.ts`.  `dateParse` stands for
the host's `new Date(s).getTime()` (epoch milliseconds, `none` for an
Invalid Date) and `now` for `Date.now()`.  The JavaScript falsiness guard
`if (!retryAfter)` also catches the empty string. -/
def parseRetryAfter (dateParse : String → Option Int) (now : Int)
    (retryAfter : Option String) : Option Int :=
  match retryAfter with
  | none => none
  | some s =>
    if s = "" then none
    else
      match jsParseInt s with
      | some n =>
        if 0 ≤ n then some (n * 1000)
        else
          match dateParse s with
          | some t => some (max 0 (t - now))
          | none => none
      | none =>
        match dateParse s with
        | some t => some (max 0 (t - now))
        | none => none

/-- `mapStatusToErrorCode` from `src/errors.ts`.  The second argument is the
optional `body?.error?.code` string extracted from the parsed body. -/
def mapStatusToErrorCode (status : Nat) (bodyCode : Option String) : ErrorCode :=
  if status = 401 then .INVALID_API_KEY
  else if status = 404 then .JOB_NOT_FOUND
  else if status = 429 then .RATE_LIMITED
  else if 500 ≤ status then .SERVER_ERROR
  else
    match bodyCode with
    | some c =>
      if c = "INVALID_API_KEY" then .INVALID_API_KEY
      else if c = "JOB_NOT_FOUND" then .JOB_NOT_FOUND
      else if c = "RATE_LIMITED" then .RATE_LIMITED
      else if c = "SERVER_ERROR" then .SERVER_ERROR
      else if c = "INVALID_RESPONSE" then .INVALID_RESPONSE
      else if c = "NETWORK_ERROR" then .NETWORK_ERROR
      else if c = "TIMEOUT" then .TIMEOUT
      else .SERVER_ERROR
    | none => .SERVER_ERROR

/-- The canonical string name of each error code, as used in the literal
comparisons of `mapStatusToErrorCode` in `src/errors.ts`. -/
def errorCodeName : ErrorCode → String
  | .INVALID_API_KEY => "INVALID_API_KEY"
  | .JOB_NOT_FOUND => "JOB_NOT_FOUND"
  | .RATE_LIMITED => "RATE_LIMITED"
  | .SERVER_ERROR => "SERVER_ERROR"
  | .INVALID_RESPONSE => "INVALID_RESPONSE"
  | .NETWORK_ERROR => "NETWORK_ERROR"
  | .TIMEOUT => "TIMEOUT"

/-- The value found at the `success` key of a parsed response body.  JavaScript
distinguishes the strict boolean `false` (`success === false`) from every
other value, including an absent key, `null`, and non-boolean values. -/
inductive SuccessVal
| absent
| jsNull
| jsTrue
| jsFalse
| nonBool
deriving DecidableEq

/-- The fields of a parsed response body that `createHttpClient` reads: the
`success` flag, the `data` payload (`none` for absent/`undefined`), the
nested `error.code` and `error.message` strings, and a top-level `message`
string. -/
structure ApiBody (T : Type) where
  success : SuccessVal := .absent
  data : Option T := none
  errorCode : Option String := none
  errorMessage : Option String := none
  topMessage : Option String := none

/-- The response signals read by `createHttpClient`: the HTTP status, the
`Content-Type` header and the `Retry-After` header. -/
structure HttpResponse where
  status : Nat
  contentType : Option String := none
  retryAfter : Option String := none

/-- `Response.ok` of the fetch API: status in the range 200–299. -/
def respOk (r : HttpResponse) : Bool :=
  200 ≤ r.status && r.status < 300

/-- The client's `isJson` check: `contentType?.includes('application/json')`,
falsy when the header is absent. -/
def respIsJson (r : HttpResponse) : Bool :=
  match r.contentType with
  | some ct => decide ("application/json".data <:+: ct.data)
  | none => false

/-- `getErrorMessage` from the HTTP client module: a top-level `message`
string, else `error.message`, else `undefined`. -/
def getErrorMessage (b : ApiBody T) : Option String :=
  match b.topMessage with
  | some m => some m
  | none => b.errorMessage

/-- Outcome of one classified attempt: a resolved payload (possibly
`undefined`, when the body had no `data`) or a thrown `BearWatchError`. -/
inductive ExecResult (T : Type)
| success (payload : Option T)
| failure (e : BearWatchError)

/-- The response-handling path of `executeRequest` inside `createHttpClient`:
given the received response, its body text, and the result of `JSON.parse`
on that text (`none` when parsing threw), produce the attempt's outcome.
It follows the source order: status checked first, then the 5xx/non-JSON
case, 429, non-JSON 4xx, JSON parse failure, `mapStatusToErrorCode`; on OK
responses: content-type check, parse check, strict `success === false`. -/
def classifyResponse (resp : HttpResponse) (bodyText : String)
    (parsed : Option (ApiBody T)) : ExecResult T :=
  if respOk resp = false then
    if 500 ≤ resp.status ∧ respIsJson resp = false then
      .failure ⟨"Server error (" ++ toString resp.status ++ ")", .SERVER_ERROR,
        some resp.status, some bodyText, none⟩
    else if resp.status = 429 then
      .failure ⟨"Rate limit exceeded", .RATE_LIMITED,
        some 429, some bodyText, resp.retryAfter⟩
    else if respIsJson resp = false then
      .failure ⟨"Non-JSON response received", .INVALID_RESPONSE,
        some resp.status, some bodyText, none⟩
    else
      match parsed with
      | none =>
        if 500 ≤ resp.status then
          .failure ⟨"Server error (" ++ toString resp.status ++ ")", .SERVER_ERROR,
            some resp.status, some bodyText, none⟩
        else
          .failure ⟨"Failed to parse JSON response", .INVALID_RESPONSE,
            some resp.status, some bodyText, none⟩
      | some body =>
        .failure ⟨(getErrorMessage body).getD
            ("Request failed with status " ++ toString resp.status),
          mapStatusToErrorCode resp.status body.errorCode,
          some resp.status, some bodyText,
          if resp.status = 429 then resp.retryAfter else none⟩
  else
    if respIsJson resp = false then
      .failure ⟨"Non-JSON response received", .INVALID_RESPONSE,
        some resp.status, some bodyText, none⟩
    else
      match parsed with
      | none =>
        .failure ⟨"Failed to parse JSON response", .INVALID_RESPONSE,
          some resp.status, some bodyText, none⟩
      | some body =>
        if body.success = .jsFalse then
          .failure ⟨body.errorMessage.getD "Request failed", .SERVER_ERROR,
            some resp.status, some bodyText, none⟩
        else
          .success body.data

/-- An exception crossing the `catch` block of `executeRequest`.  Non-SDK
errors carry an identity tag of type `E` so that "re-raised unmodified" is
expressible. -/
inductive JsThrown (E : Type)
| bw (e : BearWatchError)
| abortError (tag : E)
| typeError (tag : E)
| otherError (tag : E)
deriving DecidableEq

/-- The `catch` block of `executeRequest` in `createHttpClient`:
`BearWatchError`s pass through; an `AbortError` becomes a `TIMEOUT` error
exactly when the executor's own controller was aborted with reason
`'timeout'`, and is otherwise re-raised as-is (user cancellation); a
`TypeError` becomes `NETWORK_ERROR`; anything else becomes the generic
`NETWORK_ERROR`.  `signalReason` is `controller.signal.reason`. -/
def handleCatch (timeoutMs : Nat) (signalReason : Option String)
    (err : JsThrown E) : JsThrown E :=
  match err with
  | .bw e => .bw e
  | .abortError t =>
    if signalReason = some "timeout" then
      .bw ⟨"Request timed out after " ++ toString timeoutMs ++ "ms",
        .TIMEOUT, none, none, none⟩
    else .abortError t
  | .typeError _ => .bw ⟨"Network error", .NETWORK_ERROR, none, none, none⟩
  | .otherError _ => .bw ⟨"Unknown error occurred", .NETWORK_ERROR, none, none, none⟩

/-- `RetryOptions` from `src/internal/retry.ts`. -/
structure RetryOptions where
  maxRetries : Nat
  baseDelay : Nat

/-- What one invocation of the attempt function `fn` yields: a resolved
value, a thrown `BearWatchError`, or a thrown non-SDK error (tagged with an
identity of type `E`). -/
inductive AttemptResult (T E : Type)
| ok (v : T)
| err (e : BearWatchError)
| other (o : E)

/-- How a `withRetry` call ends: resolved, throwing a classified
`BearWatchError`, re-raising a non-SDK error, or the dead `throw lastError`
after the loop (kept for faithfulness; it is unreachable from `withRetry`). -/
inductive RetryOutcome (T E : Type)
| ok (v : T)
| failed (e : BearWatchError)
| raised (o : E)
| exhausted (lastError : Option BearWatchError)

/-- Observable trace of a `withRetry` call: its outcome, the number of times
the attempt function was invoked, and the sleeps performed in order. -/
structure RetryTrace (T E : Type) where
  outcome : RetryOutcome T E
  calls : Nat
  delays : List Int

/-- The delay computation of `withRetry` for one retried error: for
`RATE_LIMITED` the parsed `Retry-After` hint (`error.retryAfter ?? null`)
when non-null, otherwise exponential backoff with the current attempt
index. -/
def retryDelay (e : BearWatchError) (attempt : Nat) (opts : RetryOptions)
    (j : Nat → ℚ) (dateParse : String → Option Int) (now : Int) : Int :=
  if e.code = .RATE_LIMITED then
    (parseRetryAfter dateParse now e.retryAfter).getD
      (calculateBackoffDelay attempt opts.baseDelay (j attempt))
  else
    calculateBackoffDelay attempt opts.baseDelay (j attempt)

/-- The `for` loop of `withRetry` from `src/internal/retry.ts`.  `attempt` is
the loop counter; `fuel` counts the iterations the guard
`attempt <= options.maxRetries` still allows (so `withRetry` starts it at
`maxRetries + 1`, and `fuel = 0` is the fall-through `throw lastError`).
`fn i` is the result of the `i`-th invocation of the attempt function,
`j i` the jitter drawn on attempt `i`, `dateParse`/`now` the host clock
services used by `parseRetryAfter`. -/
def withRetryGo (fn : Nat → AttemptResult T E) (opts : RetryOptions)
    (j : Nat → ℚ) (dateParse : String → Option Int) (now : Int) :
    Nat → Nat → Option BearWatchError → RetryTrace T E
  | _, 0, lastError => ⟨.exhausted lastError, 0, []⟩
  | attempt, fuel + 1, _ =>
    match fn attempt with
    | .ok v => ⟨.ok v, 1, []⟩
    | .other o => ⟨.raised o, 1, []⟩
    | .err e =>
      if isRetryable e = false ∨ opts.maxRetries ≤ attempt then
        ⟨.failed e, 1, []⟩
      else
        let rest := withRetryGo fn opts j dateParse now (attempt + 1) fuel (some e)
        ⟨rest.outcome, rest.calls + 1,
          retryDelay e attempt opts j dateParse now :: rest.delays⟩

/-- `withRetry` from `src/internal/retry.ts`: run the loop from attempt 0
with its full budget of `maxRetries + 1` iterations. -/
def withRetry (fn : Nat → AttemptResult T E) (opts : RetryOptions)
    (j : Nat → ℚ) (dateParse : String → Option Int) (now : Int) : RetryTrace T E :=
  withRetryGo fn opts j dateParse now 0 (opts.maxRetries + 1) none

/-- Result of a JavaScript async call: resolved value or thrown error. -/
inductive JsOutcome (T E : Type)
| ok (v : T)
| err (e : E)

/-- `wrap` from `src/bearwatch.ts`, with the three effectful calls it makes
abstracted by their outcomes: `fnResult` is what the wrapped business
function does, `pingSuccess` what the SUCCESS-status `ping` would do, and
`pingFailed` what the FAILED-status `ping` would do.  On a business failure
the FAILED report runs inside `try { ... } catch { }`, so its own outcome is
swallowed and the original error is re-thrown. -/
def wrap (fnResult : JsOutcome T E) (pingSuccess : JsOutcome Unit E)
    (pingFailed : JsOutcome Unit E) : JsOutcome T E :=
  match fnResult with
  | .ok v =>
    match pingSuccess with
    | .ok _ => .ok v
    | .err pe => .err pe
  | .err e =>
    match pingFailed with
    | .ok _ => .err e
    | .err _ => .err e

theorem contains_status_iff (s : Nat) :
    RETRYABLE_STATUS_CODES.contains s = true ↔
      s = 429 ∨ s = 500 ∨ s = 502 ∨ s = 503 ∨ s = 504 := by
  constructor
  · intro h
    have hmem : s ∈ RETRYABLE_STATUS_CODES := List.mem_of_elem_eq_true h
    simpa [RETRYABLE_STATUS_CODES] using hmem
  · intro h
    refine List.elem_eq_true_of_mem ?_
    simp only [RETRYABLE_STATUS_CODES, List.mem_cons, List.not_mem_nil, or_false]
    tauto

theorem contains_code_iff (c : ErrorCode) :
    RETRYABLE_ERROR_CODES.contains c = true ↔
      c = .RATE_LIMITED ∨ c = .SERVER_ERROR ∨ c = .NETWORK_ERROR ∨ c = .TIMEOUT := by
  cases c <;> decide

/-- Claim C1: `isRetryable e` is true exactly when `e.code` is one of
`RATE_LIMITED`, `SERVER_ERROR`, `NETWORK_ERROR`, `TIMEOUT` or `e.statusCode`
is one of 429, 500, 502, 503, 504; in particular it is false for every
error whose code is `INVALID_API_KEY`, `JOB_NOT_FOUND` or `INVALID_RESPONSE`
and whose status is not in that list. -/
theorem claim_C1_isRetryable :
    (∀ e : BearWatchError, isRetryable e = true ↔
      (e.code = .RATE_LIMITED ∨ e.code = .SERVER_ERROR ∨ e.code = .NETWORK_ERROR ∨
       e.code = .TIMEOUT ∨
       ∃ s, e.statusCode = some s ∧ (s = 429 ∨ s = 500 ∨ s = 502 ∨ s = 503 ∨ s = 504)))
    ∧ (∀ e : BearWatchError,
      (e.code = .INVALID_API_KEY ∨ e.code = .JOB_NOT_FOUND ∨ e.code = .INVALID_RESPONSE) →
      (∀ s, e.statusCode = some s → ¬(s = 429 ∨ s = 500 ∨ s = 502 ∨ s = 503 ∨ s = 504)) →
      isRetryable e = false) := by
  have main : ∀ e : BearWatchError, isRetryable e = true ↔
      (e.code = .RATE_LIMITED ∨ e.code = .SERVER_ERROR ∨ e.code = .NETWORK_ERROR ∨
       e.code = .TIMEOUT ∨
       ∃ s, e.statusCode = some s ∧ (s = 429 ∨ s = 500 ∨ s = 502 ∨ s = 503 ∨ s = 504)) := by
    intro e
    obtain ⟨m, c, st, rb, ra⟩ := e
    cases st with
    | none =>
      rw [show isRetryable ⟨m, c, none, rb, ra⟩ = RETRYABLE_ERROR_CODES.contains c from rfl,
        contains_code_iff]
      constructor
      · tauto
      · rintro (h | h | h | h | ⟨t, ht, _⟩)
        · tauto
        · tauto
        · tauto
        · tauto
        · exact Option.noConfusion ht
    | some s =>
      simp only [isRetryable]
      by_cases hs : s = 429 ∨ s = 500 ∨ s = 502 ∨ s = 503 ∨ s = 504
      · have hs0 : s ≠ 0 := by rcases hs with h | h | h | h | h <;> omega
        have hcond : (s != 0 && RETRYABLE_STATUS_CODES.contains s) = true := by
          rw [Bool.and_eq_true, contains_status_iff s]
          exact ⟨by simpa using hs0, hs⟩
        simp only [hcond, if_true]
        constructor
        · intro _
          exact Or.inr (Or.inr (Or.inr (Or.inr ⟨s, rfl, hs⟩)))
        · intro _
          trivial
      · have hcond : (s != 0 && RETRYABLE_STATUS_CODES.contains s) = false := by
          cases h : RETRYABLE_STATUS_CODES.contains s with
          | false => simp [h]
          | true => exact absurd ((contains_status_iff s).mp h) hs
        simp only [hcond, Bool.false_eq_true, if_false, contains_code_iff]
        constructor
        · tauto
        · rintro (h | h | h | h | ⟨t, ht, hmem⟩)
          · tauto
          · tauto
          · tauto
          · tauto
          · injection ht with ht2
            subst ht2
            exact absurd hmem hs
  refine ⟨main, fun e hcode hstat => ?_⟩
  cases h : isRetryable e with
  | false => rfl
  | true =>
    exfalso
    rcases (main e).mp h with hc | hc | hc | hc | ⟨s, hs, hmem⟩
    · rcases hcode with h2 | h2 | h2 <;> rw [h2] at hc <;> exact ErrorCode.noConfusion hc
    · rcases hcode with h2 | h2 | h2 <;> rw [h2] at hc <;> exact ErrorCode.noConfusion hc
    · rcases hcode with h2 | h2 | h2 <;> rw [h2] at hc <;> exact ErrorCode.noConfusion hc
    · rcases hcode with h2 | h2 | h2 <;> rw [h2] at hc <;> exact ErrorCode.noConfusion hc
    · exact hstat s hs hmem

/-- Witness for claim C1 at concrete errors: a `TIMEOUT` error with no
status is retryable, and a 401 `INVALID_API_KEY` error is not. -/
theorem claim_C1_witness :
    isRetryable ⟨"t", .TIMEOUT, none, none, none⟩ = true
    ∧ isRetryable ⟨"Invalid API key", .INVALID_API_KEY, some 401, none, none⟩ = false :=
  ⟨(claim_C1_isRetryable.1 ⟨"t", .TIMEOUT, none, none, none⟩).mpr (by tauto),
   claim_C1_isRetryable.2 ⟨"Invalid API key", .INVALID_API_KEY, some 401, none, none⟩
     (Or.inl rfl) (by intro s hs; injection hs with h; omega)⟩

/-- Claim C5 counterexample: at `attempt = 0`, `baseDelayMs = 1`,
jitter `1/2` (drawable, since `Math.random()` can return 0) the computed
delay is `⌊1 · 2^0 · 1/2⌋ = 0`, which is strictly below the claimed lower
bound `baseDelayMs · 2^attempt · 0.5 = 1/2`. -/
theorem claim_C5_cex :
    calculateBackoffDelay 0 1 (1/2) = 0
    ∧ ¬ (((1:ℚ) * 2 ^ 0) * (1/2) ≤ ((calculateBackoffDelay 0 1 (1/2) : Int) : ℚ)) := by
  constructor
  · norm_num [calculateBackoffDelay]
  · norm_num [calculateBackoffDelay]

/-- Claim C5 (amended): for every `attempt ≥ 0`, `baseDelayMs > 0` and
jitter `j ∈ [1/2, 1]`, `calculateBackoffDelay` is an integer lying in the
closed interval `[⌊baseDelayMs · 2^attempt · 0.5⌋, baseDelayMs · 2^attempt]`
(the lower endpoint rounded down, which is the only change the
`Math.floor` in the source forces). -/
theorem claim_C5_backoff_bounds (attempt baseDelay : Nat) (j : ℚ)
    (hb : 0 < baseDelay) (hj1 : 1/2 ≤ j) (hj2 : j ≤ 1) :
    ⌊(baseDelay * 2 ^ attempt : ℚ) * (1/2)⌋ ≤ calculateBackoffDelay attempt baseDelay j
    ∧ calculateBackoffDelay attempt baseDelay j ≤ (baseDelay : Int) * 2 ^ attempt := by
  have hE : (0:ℚ) ≤ (baseDelay * 2 ^ attempt : ℚ) := by positivity
  constructor
  · exact Int.floor_le_floor (mul_le_mul_of_nonneg_left hj1 hE)
  · calc calculateBackoffDelay attempt baseDelay j
        ≤ ⌊(baseDelay * 2 ^ attempt : ℚ)⌋ :=
          Int.floor_le_floor (mul_le_of_le_one_right hE hj2)
      _ = (baseDelay : Int) * 2 ^ attempt := by
          rw [show ((baseDelay : ℚ) * 2 ^ attempt) =
              (((baseDelay : Int) * 2 ^ attempt : Int) : ℚ) by push_cast; ring,
            Int.floor_intCast]

/-- Witness for the amended claim C5 at `attempt = 1`, `baseDelayMs = 500`,
jitter `3/4`: the delay lies in `[⌊500·2·0.5⌋, 500·2] = [500, 1000]`. -/
theorem claim_C5_witness :
    0 < 500 ∧ (1:ℚ)/2 ≤ 3/4 ∧ (3/4:ℚ) ≤ 1
    ∧ ⌊((500:ℚ) * 2 ^ 1) * (1/2)⌋ ≤ calculateBackoffDelay 1 500 (3/4)
    ∧ calculateBackoffDelay 1 500 (3/4) ≤ (500 : Int) * 2 ^ 1 :=
  ⟨by norm_num, by norm_num, by norm_num,
   (claim_C5_backoff_bounds 1 500 (3/4) (by norm_num) (by norm_num) (by norm_num)).1,
   (claim_C5_backoff_bounds 1 500 (3/4) (by norm_num) (by norm_num) (by norm_num)).2⟩

/-- Claim C6: `parseRetryAfter` applies its rules in order: a null input
yields null; an input whose `parseInt` value is a non-negative integer `n`
yields `n * 1000`; otherwise an input the host parses as a date/time yields
`max 0 (target - now)`; anything else yields null.  The function is total
(never throws).  `dateParse` abstracts the host `Date` parser; JavaScript
rejects the empty string as a date, whence the `s ≠ ""` hypotheses. -/
theorem claim_C6_parseRetryAfter (dateParse : String → Option Int) (now : Int) :
    (parseRetryAfter dateParse now none = none)
    ∧ (∀ s n, jsParseInt s = some n → 0 ≤ n →
        parseRetryAfter dateParse now (some s) = some (n * 1000))
    ∧ (∀ s t, s ≠ "" → (∀ n, jsParseInt s = some n → n < 0) →
        dateParse s = some t →
        parseRetryAfter dateParse now (some s) = some (max 0 (t - now)))
    ∧ (∀ s, s ≠ "" → (∀ n, jsParseInt s = some n → n < 0) →
        dateParse s = none →
        parseRetryAfter dateParse now (some s) = none) := by
  refine ⟨rfl, ?_, ?_, ?_⟩
  · intro s n hparse hn
    have hs : s ≠ "" := by
      intro h
      rw [h, show jsParseInt "" = none from by decide] at hparse
      exact Option.noConfusion hparse
    simp [parseRetryAfter, hs, hparse, hn]
  · intro s t hs hneg hdate
    rcases hp : jsParseInt s with _ | n
    · simp [parseRetryAfter, hs, hp, hdate]
    · have := hneg n hp
      simp [parseRetryAfter, hs, hp, hdate, not_le.mpr this]
  · intro s hs hneg hdate
    rcases hp : jsParseInt s with _ | n
    · simp [parseRetryAfter, hs, hp, hdate]
    · have := hneg n hp
      simp [parseRetryAfter, hs, hp, hdate, not_le.mpr this]

/-- Witness for claim C6: `parse(null) = null`, `parse("1") = 1000`,
`parse("not-a-date") = null` (with a host date parser rejecting both
strings, as JavaScript does). -/
theorem claim_C6_witness :
    parseRetryAfter (fun _ => none) 0 none = none
    ∧ parseRetryAfter (fun _ => none) 0 (some "1") = some 1000
    ∧ parseRetryAfter (fun _ => none) 0 (some "not-a-date") = none :=
  ⟨(claim_C6_parseRetryAfter (fun _ => none) 0).1,
   by
    have h := (claim_C6_parseRetryAfter (fun _ => none) 0).2.1 "1" 1 (by decide) (by decide)
    simpa using h,
   (claim_C6_parseRetryAfter (fun _ => none) 0).2.2.2 "not-a-date" (by decide)
     (fun n hn => by
       rw [show jsParseInt "not-a-date" = none from by decide] at hn
       exact Option.noConfusion hn) rfl⟩

theorem isRetryable_of_code (m : String) (c : ErrorCode) (st : Option Nat)
    (rb ra : Option String) (hc : RETRYABLE_ERROR_CODES.contains c = true) :
    isRetryable ⟨m, c, st, rb, ra⟩ = true := by
  cases st with
  | none => exact hc
  | some s =>
    simp only [isRetryable]
    by_cases h : (s != 0 && RETRYABLE_STATUS_CODES.contains s) = true
    · rw [if_pos h]
    · rw [if_neg h]
      exact hc

/-- Claim C3: a response with status ≥ 500 whose body is not the declared
structured JSON format — the content-type is not `application/json`, or the
body text fails to parse — is classified as a `SERVER_ERROR` carrying that
status, a retryable kind, and never as `INVALID_RESPONSE`. -/
theorem claim_C3_server_error {T : Type} (resp : HttpResponse) (bodyText : String)
    (parsed : Option (ApiBody T))
    (h5 : 500 ≤ resp.status)
    (hbad : respIsJson resp = false ∨ parsed = none) :
    ∃ e, classifyResponse resp bodyText parsed = .failure e
      ∧ e.code = .SERVER_ERROR
      ∧ e.statusCode = some resp.status
      ∧ isRetryable e = true := by
  have hok : respOk resp = false := by
    simp only [respOk, Bool.and_eq_false_iff]
    right
    simp only [decide_eq_false_iff_not, not_lt]
    omega
  simp only [classifyResponse]
  rw [if_pos hok]
  by_cases hj : respIsJson resp = false
  · rw [if_pos ⟨h5, hj⟩]
    exact ⟨_, rfl, rfl, rfl, isRetryable_of_code _ _ _ _ _ (by decide)⟩
  · rcases hbad with h | hp
    · exact absurd h hj
    · rw [if_neg (fun h => hj h.2), if_neg (by omega), if_neg hj, hp]
      rw [if_pos h5]
      exact ⟨_, rfl, rfl, rfl, isRetryable_of_code _ _ _ _ _ (by decide)⟩

/-- Witness for claim C3: a 500 response with an HTML body (non-JSON
content type) classifies as a retryable `SERVER_ERROR`. -/
theorem claim_C3_witness :
    500 ≤ (500 : Nat)
    ∧ ∃ e, classifyResponse (T := Unit) ⟨500, some "text/html", none⟩
        "<html>bad gateway</html>" none = .failure e
      ∧ e.code = .SERVER_ERROR
      ∧ e.statusCode = some 500
      ∧ isRetryable e = true :=
  ⟨by omega,
   claim_C3_server_error ⟨500, some "text/html", none⟩ "<html>bad gateway</html>" none
     (by decide) (Or.inl (by decide))⟩

/-- Claim C7: every non-OK response whose body parses as the declared
structured format gets its error kind from `mapStatusToErrorCode`, and that
map sends 401 to `INVALID_API_KEY`, 404 to `JOB_NOT_FOUND`, 429 to
`RATE_LIMITED`, any status ≥ 500 to `SERVER_ERROR`, and for any other
status uses the body's explicit error-code field when it names one of the
seven known kinds, defaulting to `SERVER_ERROR` otherwise. -/
theorem claim_C7_status_mapping {T : Type} :
    (∀ (resp : HttpResponse) (bodyText : String) (body : ApiBody T),
      respOk resp = false → respIsJson resp = true →
      ∃ e, classifyResponse resp bodyText (some body) = .failure e
        ∧ e.code = mapStatusToErrorCode resp.status body.errorCode
        ∧ e.statusCode = some resp.status)
    ∧ (∀ bc, mapStatusToErrorCode 401 bc = .INVALID_API_KEY)
    ∧ (∀ bc, mapStatusToErrorCode 404 bc = .JOB_NOT_FOUND)
    ∧ (∀ bc, mapStatusToErrorCode 429 bc = .RATE_LIMITED)
    ∧ (∀ s bc, 500 ≤ s → mapStatusToErrorCode s bc = .SERVER_ERROR)
    ∧ (∀ s (k : ErrorCode), s ≠ 401 → s ≠ 404 → s ≠ 429 → s < 500 →
        mapStatusToErrorCode s (some (errorCodeName k)) = k)
    ∧ (∀ s c, s ≠ 401 → s ≠ 404 → s ≠ 429 → s < 500 →
        (∀ k : ErrorCode, errorCodeName k ≠ c) →
        mapStatusToErrorCode s (some c) = .SERVER_ERROR)
    ∧ (∀ s, s ≠ 401 → s ≠ 404 → s ≠ 429 → s < 500 →
        mapStatusToErrorCode s none = .SERVER_ERROR) := by
  refine ⟨?_, ?_, ?_, ?_, ?_, ?_, ?_, ?_⟩
  · intro resp bodyText body hok hj
    simp only [classifyResponse]
    rw [if_pos hok, if_neg (fun h => by rw [hj] at h; exact Bool.noConfusion h.2)]
    by_cases h429 : resp.status = 429
    · rw [if_pos h429]
      refine ⟨_, rfl, ?_, by rw [h429]⟩
      rw [h429]
      simp [mapStatusToErrorCode]
    · rw [if_neg h429, if_neg (fun h => by rw [hj] at h; exact Bool.noConfusion h)]
      exact ⟨_, rfl, rfl, rfl⟩
  · intro bc
    simp [mapStatusToErrorCode]
  · intro bc
    simp [mapStatusToErrorCode]
  · intro bc
    simp [mapStatusToErrorCode]
  · intro s bc h5
    simp only [mapStatusToErrorCode]
    rw [if_neg (by omega), if_neg (by omega), if_neg (by omega), if_pos h5]
  · intro s k h1 h4 h9 h5
    simp only [mapStatusToErrorCode]
    rw [if_neg h1, if_neg h4, if_neg h9, if_neg (by omega)]
    cases k <;> rfl
  · intro s c h1 h4 h9 h5 hk
    simp only [mapStatusToErrorCode]
    rw [if_neg h1, if_neg h4, if_neg h9, if_neg (by omega),
      if_neg (fun h => hk .INVALID_API_KEY h.symm),
      if_neg (fun h => hk .JOB_NOT_FOUND h.symm),
      if_neg (fun h => hk .RATE_LIMITED h.symm),
      if_neg (fun h => hk .SERVER_ERROR h.symm),
      if_neg (fun h => hk .INVALID_RESPONSE h.symm),
      if_neg (fun h => hk .NETWORK_ERROR h.symm),
      if_neg (fun h => hk .TIMEOUT h.symm)]
  · intro s h1 h4 h9 h5
    simp only [mapStatusToErrorCode]
    rw [if_neg h1, if_neg h4, if_neg h9, if_neg (by omega)]

/-- Witness for claim C7: a 404 JSON response classifies through
`mapStatusToErrorCode`, which yields `JOB_NOT_FOUND` there. -/
theorem claim_C7_witness :
    (∃ e, classifyResponse (T := Unit) ⟨404, some "application/json", none⟩
        "body" (some {}) = .failure e
      ∧ e.code = mapStatusToErrorCode 404 (ApiBody.errorCode (T := Unit) {})
      ∧ e.statusCode = some 404)
    ∧ mapStatusToErrorCode 404 none = .JOB_NOT_FOUND :=
  ⟨(claim_C7_status_mapping (T := Unit)).1 ⟨404, some "application/json", none⟩ "body" {}
     (by decide) (by decide),
   (claim_C7_status_mapping (T := Unit)).2.2.1 none⟩

/-- Claim C10: an OK response with JSON content-type and parseable body
resolves with the body's `data` field whenever the `success` field is not
the strict boolean `false` (absent, null and non-boolean values count as
success, possibly with an undefined payload); only `success === false`
produces the `SERVER_ERROR` carrying the body's `error.message`. -/
theorem claim_C10_success_flag {T : Type} (resp : HttpResponse) (bodyText : String)
    (body : ApiBody T)
    (hok : respOk resp = true) (hj : respIsJson resp = true) :
    (body.success ≠ .jsFalse →
      classifyResponse resp bodyText (some body) = .success body.data)
    ∧ (body.success = .jsFalse →
      classifyResponse resp bodyText (some body) =
        .failure ⟨body.errorMessage.getD "Request failed", .SERVER_ERROR,
          some resp.status, some bodyText, none⟩) := by
  have hok' : ¬(respOk resp = false) := by rw [hok]; exact fun h => Bool.noConfusion h
  have hj' : ¬(respIsJson resp = false) := by rw [hj]; exact fun h => Bool.noConfusion h
  simp only [classifyResponse]
  rw [if_neg hok', if_neg hj']
  constructor
  · intro h
    rw [if_neg h]
  · intro h
    rw [if_pos h]

/-- Witness for claim C10: with an absent `success` field the payload is
returned; with `success: false` the body's error message surfaces as a
`SERVER_ERROR`. -/
theorem claim_C10_witness :
    (classifyResponse (T := Nat) ⟨200, some "application/json", none⟩ "ok"
      (some { success := .absent, data := some 5 }) = .success (some 5))
    ∧ (classifyResponse (T := Nat) ⟨200, some "application/json", none⟩ "bad"
      (some { success := .jsFalse, errorMessage := some "boom" }) =
        .failure ⟨"boom", .SERVER_ERROR, some 200, some "bad", none⟩) :=
  ⟨(claim_C10_success_flag ⟨200, some "application/json", none⟩ "ok"
      { success := .absent, data := some 5 } (by decide) (by decide)).1
     (fun h => SuccessVal.noConfusion h),
   (claim_C10_success_flag ⟨200, some "application/json", none⟩ "bad"
      { success := .jsFalse, errorMessage := some "boom" } (by decide) (by decide)).2 rfl⟩

theorem withRetryGo_calls_le {T E : Type} (fn : Nat → AttemptResult T E)
    (opts : RetryOptions) (j : Nat → ℚ) (dp : String → Option Int) (now : Int) :
    ∀ fuel attempt last, (withRetryGo fn opts j dp now attempt fuel last).calls ≤ fuel := by
  intro fuel
  induction fuel with
  | zero =>
    intro attempt last
    exact Nat.le_refl 0
  | succ f ih =>
    intro attempt last
    simp only [withRetryGo]
    split
    next => exact Nat.succ_le_succ (Nat.zero_le f)
    next => exact Nat.succ_le_succ (Nat.zero_le f)
    next e heq =>
      by_cases hcond : isRetryable e = false ∨ opts.maxRetries ≤ attempt
      · rw [if_pos hcond]
        exact Nat.succ_le_succ (Nat.zero_le f)
      · rw [if_neg hcond]
        exact Nat.succ_le_succ (ih (attempt + 1) (some e))

theorem withRetryGo_exhaust {T E : Type} (fn : Nat → AttemptResult T E)
    (opts : RetryOptions) (j : Nat → ℚ) (dp : String → Option Int) (now : Int)
    (es : Nat → BearWatchError)
    (hall : ∀ i, i ≤ opts.maxRetries → fn i = .err (es i) ∧ isRetryable (es i) = true) :
    ∀ fuel attempt last, 1 ≤ fuel → attempt + fuel = opts.maxRetries + 1 →
      (withRetryGo fn opts j dp now attempt fuel last).outcome = .failed (es opts.maxRetries)
      ∧ (withRetryGo fn opts j dp now attempt fuel last).calls = fuel := by
  intro fuel
  induction fuel with
  | zero =>
    intro attempt last h1 _
    exact absurd h1 (by omega)
  | succ f ih =>
    intro attempt last _ hsum
    obtain ⟨hfn, hret⟩ := hall attempt (by omega)
    simp only [withRetryGo]
    split
    next v heq =>
      rw [hfn] at heq
      exact AttemptResult.noConfusion heq
    next o heq =>
      rw [hfn] at heq
      exact AttemptResult.noConfusion heq
    next e2 heq =>
      rw [hfn] at heq
      injection heq with he2
      subst he2
      by_cases hstop : f = 0
      · subst hstop
        have ha : attempt = opts.maxRetries := by omega
        rw [if_pos (Or.inr (by omega))]
        exact ⟨by rw [ha], rfl⟩
      · have hlt : attempt < opts.maxRetries := by omega
        rw [if_neg (by
          rintro (h | h)
          · rw [hret] at h
            exact Bool.noConfusion h
          · omega)]
        have hrec := ih (attempt + 1) (some (es attempt)) (by omega) (by omega)
        refine ⟨hrec.1, ?_⟩
        show (withRetryGo fn opts j dp now (attempt + 1) f (some (es attempt))).calls + 1 = f + 1
        rw [hrec.2]

/-- Claim C2: `withRetry` invokes the attempt function at most
`maxRetries + 1` times; a first attempt failing with a non-retryable typed
error is thrown after exactly one attempt regardless of `maxRetries`; and
when every attempt in the budget fails retryably, the error thrown is the
last attempt's classified error, after exactly `maxRetries + 1` attempts. -/
theorem claim_C2_withRetry {T E : Type} :
    (∀ (fn : Nat → AttemptResult T E) (opts : RetryOptions) (j : Nat → ℚ)
      (dp : String → Option Int) (now : Int),
      (withRetry fn opts j dp now).calls ≤ opts.maxRetries + 1)
    ∧ (∀ (fn : Nat → AttemptResult T E) (opts : RetryOptions) (j : Nat → ℚ)
      (dp : String → Option Int) (now : Int) (e : BearWatchError),
      fn 0 = .err e → isRetryable e = false →
      withRetry fn opts j dp now = ⟨.failed e, 1, []⟩)
    ∧ (∀ (fn : Nat → AttemptResult T E) (opts : RetryOptions) (j : Nat → ℚ)
      (dp : String → Option Int) (now : Int) (es : Nat → BearWatchError),
      (∀ i, i ≤ opts.maxRetries → fn i = .err (es i) ∧ isRetryable (es i) = true) →
      (withRetry fn opts j dp now).outcome = .failed (es opts.maxRetries)
      ∧ (withRetry fn opts j dp now).calls = opts.maxRetries + 1) := by
  refine ⟨?_, ?_, ?_⟩
  · intro fn opts j dp now
    exact withRetryGo_calls_le fn opts j dp now (opts.maxRetries + 1) 0 none
  · intro fn opts j dp now e hfn hret
    show withRetryGo fn opts j dp now 0 (opts.maxRetries + 1) none = ⟨.failed e, 1, []⟩
    simp only [withRetryGo]
    split
    next v heq =>
      rw [hfn] at heq
      exact AttemptResult.noConfusion heq
    next o heq =>
      rw [hfn] at heq
      exact AttemptResult.noConfusion heq
    next e2 heq =>
      rw [hfn] at heq
      injection heq with he2
      subst he2
      rw [if_pos (Or.inl hret)]
  · intro fn opts j dp now es hall
    exact withRetryGo_exhaust fn opts j dp now es hall (opts.maxRetries + 1) 0 none
      (by omega) (by omega)

/-- Witness for claim C2 at `maxRetries = 3`: a run never makes more than 4
calls; a non-retryable 401 `INVALID_API_KEY` failure on the first attempt
ends the run at one call with that error and no sleep; and four straight
retryable `SERVER_ERROR` failures end with that last error after 4 calls. -/
theorem claim_C2_witness :
    ((withRetry (T := Unit) (E := Unit)
        (fun _ => .err ⟨"Server error (500)", .SERVER_ERROR, some 500, none, none⟩)
        ⟨3, 500⟩ (fun _ => 3/4) (fun _ => none) 0).calls ≤ 3 + 1)
    ∧ (withRetry (T := Unit) (E := Unit)
        (fun _ => .err ⟨"Invalid API key", .INVALID_API_KEY, some 401, none, none⟩)
        ⟨3, 500⟩ (fun _ => 3/4) (fun _ => none) 0 =
        ⟨.failed ⟨"Invalid API key", .INVALID_API_KEY, some 401, none, none⟩, 1, []⟩)
    ∧ ((withRetry (T := Unit) (E := Unit)
        (fun _ => .err ⟨"Server error (500)", .SERVER_ERROR, some 500, none, none⟩)
        ⟨3, 500⟩ (fun _ => 3/4) (fun _ => none) 0).outcome =
          .failed ⟨"Server error (500)", .SERVER_ERROR, some 500, none, none⟩
      ∧ (withRetry (T := Unit) (E := Unit)
        (fun _ => .err ⟨"Server error (500)", .SERVER_ERROR, some 500, none, none⟩)
        ⟨3, 500⟩ (fun _ => 3/4) (fun _ => none) 0).calls = 3 + 1) :=
  ⟨claim_C2_withRetry.1 _ ⟨3, 500⟩ (fun _ => 3/4) (fun _ => none) 0,
   claim_C2_withRetry.2.1 _ ⟨3, 500⟩ (fun _ => 3/4) (fun _ => none) 0
     ⟨"Invalid API key", .INVALID_API_KEY, some 401, none, none⟩ rfl (by decide),
   claim_C2_withRetry.2.2 _ ⟨3, 500⟩ (fun _ => 3/4) (fun _ => none) 0
     (fun _ => ⟨"Server error (500)", .SERVER_ERROR, some 500, none, none⟩)
     (fun i _ => ⟨rfl, by
       show isRetryable ⟨"Server error (500)", .SERVER_ERROR, some 500, none, none⟩ = true
       decide⟩)⟩

/-- Claim C4: when the loop retries a `RATE_LIMITED` failure, the delay
slept before the next attempt is the parsed `Retry-After` hint whenever
`parseRetryAfter` yields a non-null value, overriding exponential backoff,
and is the exponential backoff for the current attempt index when the hint
is absent or invalid. -/
theorem claim_C4_rate_limited_delay {T E : Type}
    (fn : Nat → AttemptResult T E) (opts : RetryOptions) (j : Nat → ℚ)
    (dp : String → Option Int) (now : Int) (attempt : Nat) (e : BearWatchError)
    (fuel : Nat) (last : Option BearWatchError)
    (hfn : fn attempt = .err e) (hret : isRetryable e = true)
    (hlt : attempt < opts.maxRetries) (hcode : e.code = .RATE_LIMITED) :
    ((withRetryGo fn opts j dp now attempt (fuel + 1) last).delays.head? =
      some ((parseRetryAfter dp now e.retryAfter).getD
        (calculateBackoffDelay attempt opts.baseDelay (j attempt))))
    ∧ (∀ d, parseRetryAfter dp now e.retryAfter = some d →
        (withRetryGo fn opts j dp now attempt (fuel + 1) last).delays.head? = some d)
    ∧ (parseRetryAfter dp now e.retryAfter = none →
        (withRetryGo fn opts j dp now attempt (fuel + 1) last).delays.head? =
          some (calculateBackoffDelay attempt opts.baseDelay (j attempt))) := by
  have hmain : (withRetryGo fn opts j dp now attempt (fuel + 1) last).delays.head? =
      some ((parseRetryAfter dp now e.retryAfter).getD
        (calculateBackoffDelay attempt opts.baseDelay (j attempt))) := by
    simp only [withRetryGo]
    split
    next v heq =>
      rw [hfn] at heq
      exact AttemptResult.noConfusion heq
    next o heq =>
      rw [hfn] at heq
      exact AttemptResult.noConfusion heq
    next e2 heq =>
      rw [hfn] at heq
      injection heq with he2
      subst he2
      rw [if_neg (by
        rintro (h | h)
        · rw [hret] at h
          exact Bool.noConfusion h
        · omega)]
      show (retryDelay e attempt opts j dp now ::
          (withRetryGo fn opts j dp now (attempt + 1) fuel (some e)).delays).head? = _
      rw [List.head?_cons]
      simp only [retryDelay]
      rw [if_pos hcode]
  refine ⟨hmain, ?_, ?_⟩
  · intro d hd
    rw [hmain, hd]
    rfl
  · intro hd
    rw [hmain, hd]
    rfl

/-- Witness for claim C4: a 429 failure carrying `Retry-After: 1` makes the
loop sleep exactly 1000 ms (≥ 1000 ms) before its second attempt. -/
theorem claim_C4_witness :
    (withRetry (T := Unit) (E := Unit)
      (fun _ => .err ⟨"Rate limit exceeded", .RATE_LIMITED, some 429, none, some "1"⟩)
      ⟨3, 500⟩ (fun _ => 3/4) (fun _ => none) 0).delays.head? = some 1000
    ∧ (1000 : Int) ≥ 1000 := by
  constructor
  · exact (claim_C4_rate_limited_delay
      (fun _ => .err ⟨"Rate limit exceeded", .RATE_LIMITED, some 429, none, some "1"⟩)
      ⟨3, 500⟩ (fun _ => 3/4) (fun _ => none) 0 0
      ⟨"Rate limit exceeded", .RATE_LIMITED, some 429, none, some "1"⟩ 3 none
      rfl (by decide) (by decide) rfl).2.1 1000 (by decide)
  · norm_num

/-- Claim C8: an error raised by an attempt that is not a `BearWatchError`
is re-raised unmodified on its first occurrence — one call, no sleep, no
further attempts — regardless of attempt count and policy; and in the
executor's catch block only the internal timeout cancellation
(`signal.reason == 'timeout'`) is wrapped as a `TIMEOUT` typed error, a
cancellation with any other reason passing through as-is. -/
theorem claim_C8_non_sdk_error {T E : Type} :
    (∀ (fn : Nat → AttemptResult T E) (opts : RetryOptions) (j : Nat → ℚ)
      (dp : String → Option Int) (now : Int) (attempt fuel : Nat)
      (last : Option BearWatchError) (o : E),
      fn attempt = .other o →
      withRetryGo fn opts j dp now attempt (fuel + 1) last = ⟨.raised o, 1, []⟩)
    ∧ (∀ (timeoutMs : Nat) (signalReason : Option String) (t : E),
      signalReason ≠ some "timeout" →
      handleCatch timeoutMs signalReason (.abortError t) = .abortError t)
    ∧ (∀ (timeoutMs : Nat) (t : E),
      handleCatch timeoutMs (some "timeout") (.abortError t) =
        .bw ⟨"Request timed out after " ++ toString timeoutMs ++ "ms",
          .TIMEOUT, none, none, none⟩) := by
  refine ⟨?_, ?_, ?_⟩
  · intro fn opts j dp now attempt fuel last o hfn
    simp only [withRetryGo]
    split
    next v heq =>
      rw [hfn] at heq
      exact AttemptResult.noConfusion heq
    next o2 heq =>
      rw [hfn] at heq
      injection heq with ho
      subst ho
      rfl
    next e heq =>
      rw [hfn] at heq
      exact AttemptResult.noConfusion heq
  · intro timeoutMs signalReason t h
    simp [handleCatch, h]
  · intro timeoutMs t
    simp [handleCatch]

/-- Witness for claim C8: a non-SDK error tagged 42 thrown on the first
attempt ends the run immediately with that tag, one call and no sleep even
with `maxRetries = 3`; an abort whose signal reason is not the internal
marker passes through; one whose reason is `timeout` becomes `TIMEOUT`. -/
theorem claim_C8_witness :
    (withRetry (T := Unit) (E := Nat) (fun _ => .other 42)
      ⟨3, 500⟩ (fun _ => 3/4) (fun _ => none) 0 = ⟨.raised 42, 1, []⟩)
    ∧ handleCatch (E := Nat) 30000 (some "user-cancel") (.abortError 7) = .abortError 7
    ∧ handleCatch (E := Nat) 30000 (some "timeout") (.abortError 7) =
        .bw ⟨"Request timed out after 30000ms", .TIMEOUT, none, none, none⟩ := by
  refine ⟨?_, ?_, ?_⟩
  · exact (claim_C8_non_sdk_error (T := Unit) (E := Nat)).1 (fun _ => .other 42)
      ⟨3, 500⟩ (fun _ => 3/4) (fun _ => none) 0 0 3 none 42 rfl
  · exact (claim_C8_non_sdk_error (T := Unit) (E := Nat)).2.1 30000 (some "user-cancel") 7
      (by decide)
  · exact (claim_C8_non_sdk_error (T := Unit) (E := Nat)).2.2 30000 7

/-- Claim C9: if the wrapped business function throws `e`, `wrap` rejects
with exactly `e`, whatever the FAILED-status report does — its failure is
swallowed and never replaces the original error. -/
theorem claim_C9_wrap {T E : Type} (fnResult : JsOutcome T E)
    (pingSuccess pingFailed : JsOutcome Unit E) (e : E)
    (h : fnResult = .err e) :
    wrap fnResult pingSuccess pingFailed = .err e := by
  subst h
  cases pingFailed <;> rfl

/-- Witness for claim C9: the business function throws error 7 and the
FAILED report itself throws error 9; the call still rejects with 7. -/
theorem claim_C9_witness :
    wrap (T := Nat) (.err 7) (.ok ()) (.err 9) = .err 7 :=
  claim_C9_wrap (.err 7) (.ok ()) (.err 9) 7 rfl

end BearWatch
